import Mathlib

/-!
Shallow embedding of the decision core of `src/index.ts` (ip-intel-agent):
the full-lookup three-source merge, its confidence tally, the batch
orchestrator, the threat risk scoring, and the haversine distance.

JavaScript dynamic values are embedded per field with `Option`:
`none` stands for `undefined`/`null`/missing (the code treats the two
identically everywhere: `?.`, `||` and `??` do not distinguish them),
`some v` for a present value.  JS truthiness is modelled per type:
a string is truthy iff non-empty, a number iff non-zero (NaN, which is
falsy, is folded into `none` where it can arise), a boolean iff `true`.
-/

/-! ## JS value helpers -/

/-- JS truthiness of a possibly-absent string: `undefined`, `null` and `""`
are falsy. -/
def strTruthy : Option String → Bool
  | some s => s != ""
  | none => false

/-- JS truthiness of a possibly-absent number: `undefined`, `null` and `0`
are falsy. -/
def numTruthy : Option ℚ → Bool
  | some q => q != 0
  | none => false

/-- JS truthiness of a possibly-absent boolean. -/
def boolTruthy : Option Bool → Bool
  | some b => b
  | none => false

/-- JS `x || y` over an embedded value type with truthiness `tr`: returns
`x` when truthy, otherwise `y` as-is (even when `y` is itself falsy). -/
def jsOr {α : Type} (tr : Option α → Bool) (x y : Option α) : Option α :=
  if tr x then x else y

/-- JS `x ?? d` with a present default `d`: only `undefined`/`null` fall
through; a present `false`/`0`/`""` wins. -/
def jsNullish {α : Type} (x : Option α) (d : α) : α :=
  x.getD d

/-! ## Risk Scoring Engine (threat handler, src/index.ts lines 257–278) -/

/-- The fields of the threat endpoint's provider JSON that the risk logic
reads (`data.proxy`, `data.hosting`, `data.mobile`, `data.reverse`). -/
structure ThreatRaw where
  proxy : Option Bool := none
  hosting : Option Bool := none
  mobile : Option Bool := none
  reverse : Option String := none
deriving DecidableEq, Repr

/-- Mirror of the sequential accumulation in the threat handler:
`riskScore` starts at 0 and `riskFactors` empty; each of the four `if`s,
in source order, adds its points and pushes its factor name. -/
def riskOf (d : ThreatRaw) : Nat × List String :=
  let acc : Nat × List String := (0, [])
  let acc := if boolTruthy d.proxy then (acc.1 + 40, acc.2 ++ ["proxy_or_vpn"]) else acc
  let acc := if boolTruthy d.hosting then (acc.1 + 30, acc.2 ++ ["datacenter_hosting"]) else acc
  let acc := if boolTruthy d.mobile then (acc.1 + 10, acc.2 ++ ["mobile_carrier"]) else acc
  let acc := if !strTruthy d.reverse then (acc.1 + 10, acc.2 ++ ["no_reverse_dns"]) else acc
  acc

/-- `riskScore` of the threat handler. -/
def riskScore (d : ThreatRaw) : Nat := (riskOf d).1

/-- `riskFactors` of the threat handler. -/
def riskFactors (d : ThreatRaw) : List String := (riskOf d).2

/-- The three risk levels. -/
inductive RiskLevel where
  | low
  | medium
  | high
deriving DecidableEq, Repr

/-- `riskScore >= 50 ? 'high' : riskScore >= 20 ? 'medium' : 'low'`. -/
def riskLevel (d : ThreatRaw) : RiskLevel :=
  if riskScore d ≥ 50 then .high else if riskScore d ≥ 20 then .medium else .low

/-- Closed form of the accumulated score (shared helper). -/
theorem riskScore_eq (d : ThreatRaw) :
    riskScore d =
      (if boolTruthy d.proxy then 40 else 0) + (if boolTruthy d.hosting then 30 else 0)
        + (if boolTruthy d.mobile then 10 else 0)
        + (if strTruthy d.reverse then 0 else 10) := by
  unfold riskScore riskOf
  cases boolTruthy d.proxy <;> cases boolTruthy d.hosting <;> cases boolTruthy d.mobile <;>
    cases strTruthy d.reverse <;> simp

/-- Closed form of the accumulated factor list (shared helper). -/
theorem riskFactors_eq (d : ThreatRaw) :
    riskFactors d =
      (if boolTruthy d.proxy then ["proxy_or_vpn"] else [])
        ++ (if boolTruthy d.hosting then ["datacenter_hosting"] else [])
        ++ (if boolTruthy d.mobile then ["mobile_carrier"] else [])
        ++ (if strTruthy d.reverse then [] else ["no_reverse_dns"]) := by
  unfold riskFactors riskOf
  cases boolTruthy d.proxy <;> cases boolTruthy d.hosting <;> cases boolTruthy d.mobile <;>
    cases strTruthy d.reverse <;> simp

/-! ## Batch Orchestrator (batch handler, src/index.ts lines 188–235)

The outcome of one `fetchJSON` call for one IP is either a JSON object or a
thrown error (HTTP error, abort/timeout, network failure); `Promise.all`
over the mapped items is total because every item catches its own error.
The IP-syntax validator is the excluded external collaborator (spec §1/§6),
so the handler is parameterized over an arbitrary `valid` predicate. -/

/-- The fields of the batch endpoint's per-IP provider JSON that the handler
reads (`fields=status,country,countryCode,city,lat,lon,isp,org,as,proxy,hosting,query`). -/
structure BatchRaw where
  status : Option String
  country : Option String
  countryCode : Option String
  city : Option String
  lat : Option ℚ
  lon : Option ℚ
  isp : Option String
  org : Option String
  «as» : Option String
  proxy : Option Bool
  hosting : Option Bool
  query : Option String
deriving DecidableEq, Repr

/-- Outcome of one `fetchJSON` call: fulfilled with a JSON object, or
thrown (non-2xx status, timeout/abort, network error). -/
inductive FetchResult where
  | ok (data : BatchRaw)
  | thrown
deriving DecidableEq, Repr

/-- The success object built for one batch item (lines 202–214). -/
structure BatchOkItem where
  ip : Option String
  country : Option String
  countryCode : Option String
  city : Option String
  lat : Option ℚ
  lon : Option ℚ
  isp : Option String
  org : Option String
  asn : Option String
  isProxy : Option Bool
  isHosting : Option Bool
deriving DecidableEq, Repr

/-- One entry of `results`: the success object, or `{ip, error}`. -/
inductive BatchItem where
  | ok (item : BatchOkItem)
  | err (ip : String) (error : String)
deriving DecidableEq, Repr

/-- The per-item body of the `validIPs.map` (lines 194–218): a thrown fetch
becomes `{ip, error: 'Request failed'}` via the `catch`; a fulfilled fetch
whose `status` is not `'success'` becomes `{ip, error: 'Lookup failed'}`;
otherwise the success object (whose `ip` is the provider's `query`). -/
def batchItemOf (ip : String) : FetchResult → BatchItem
  | .thrown => .err ip "Request failed"
  | .ok data =>
      if data.status ≠ some "success" then .err ip "Lookup failed"
      else .ok {
        ip := data.query
        country := data.country
        countryCode := data.countryCode
        city := data.city
        lat := data.lat
        lon := data.lon
        isp := data.isp
        org := data.org
        asn := data.as
        isProxy := data.proxy
        isHosting := data.hosting }

/-- `count: {requested, valid, invalid}` (lines 225–229). -/
structure BatchCount where
  requested : Nat
  valid : Nat
  invalid : Nat
deriving DecidableEq, Repr

/-- The batch handler's output object (lines 221–233); `invalidIPs` is
`none` when the field is omitted (`undefined`). -/
structure BatchOutput where
  results : List BatchItem
  invalidIPs : Option (List String)
  count : BatchCount
deriving DecidableEq, Repr

/-- The batch handler (lines 188–233), parameterized over the external
IP-syntax validator and over the fetch outcome of each IP. -/
def batchHandler (ips : List String) (valid : String → Bool)
    (env : String → FetchResult) : BatchOutput :=
  let validIPs := ips.filter valid
  let invalidIPs := ips.filter (fun ip => !valid ip)
  { results := validIPs.map (fun ip => batchItemOf ip (env ip))
    invalidIPs := if invalidIPs.length > 0 then some invalidIPs else none
    count := {
      requested := ips.length
      valid := validIPs.length
      invalid := invalidIPs.length } }

/-! ## Full lookup: three-source merge (full handler, src/index.ts lines 121–178)

`Promise.allSettled` over the three provider fetches; a fulfilled fetch's
JSON becomes the source record, a rejected one becomes `null`.  The raw
record structures carry exactly the fields the handler reads; every field
defaults to `none` (absent). -/

/-- Digit run to its decimal value. -/
def digitsToNat (ds : List Char) : Nat :=
  ds.foldl (fun n c => 10 * n + (c.toNat - '0'.toNat)) 0

/-- Model of JS `parseFloat` on decimal forms (the shapes a `"lat,lon"`
split produces): skip leading spaces, optional sign, integer digits,
optional fraction, trailing text ignored as in JS; `none` models `NaN`
(no digit parsed).  Exponent forms are outside the model. -/
def parseFloat (s : String) : Option ℚ :=
  let cs := s.toList.dropWhile (fun c => c = ' ')
  let signedRest : ℚ × List Char :=
    match cs with
    | '-' :: r => (-1, r)
    | '+' :: r => (1, r)
    | _ => (1, cs)
  let ipart := signedRest.2.takeWhile Char.isDigit
  let rest := signedRest.2.dropWhile Char.isDigit
  let fpart :=
    match rest with
    | '.' :: r => r.takeWhile Char.isDigit
    | _ => []
  if ipart.isEmpty && fpart.isEmpty then none
  else some (signedRest.1 * ((digitsToNat ipart : ℚ) + (digitsToNat fpart : ℚ) / 10 ^ fpart.length))

/-- ip-api.com JSON for the full handler's field list (line 133). -/
structure PrimaryRaw where
  status : Option String := none
  country : Option String := none
  countryCode : Option String := none
  region : Option String := none
  regionName : Option String := none
  city : Option String := none
  zip : Option String := none
  lat : Option ℚ := none
  lon : Option ℚ := none
  timezone : Option String := none
  isp : Option String := none
  org : Option String := none
  «as» : Option String := none
  asname : Option String := none
  reverse : Option String := none
  mobile : Option Bool := none
  proxy : Option Bool := none
  hosting : Option Bool := none
  query : Option String := none
deriving DecidableEq, Repr

/-- ipinfo.io JSON fields the handler reads (line 134). -/
structure SecondaryRaw where
  country : Option String := none
  region : Option String := none
  city : Option String := none
  postal : Option String := none
  loc : Option String := none
  timezone : Option String := none
  org : Option String := none
  hostname : Option String := none
  anycast : Option Bool := none
deriving DecidableEq, Repr

/-- ipwho.is `connection` object fields the handler reads. -/
structure TertiaryConnection where
  isp : Option String := none
  org : Option String := none
  asn : Option Nat := none
  domain : Option String := none
deriving DecidableEq, Repr

/-- ipwho.is `timezone` object field the handler reads (`timezone.id`). -/
structure TertiaryTimezone where
  id : Option String := none
deriving DecidableEq, Repr

/-- ipwho.is JSON fields the handler reads (line 135). -/
structure TertiaryRaw where
  country : Option String := none
  country_code : Option String := none
  region : Option String := none
  city : Option String := none
  postal : Option String := none
  latitude : Option ℚ := none
  longitude : Option ℚ := none
  timezone : Option TertiaryTimezone := none
  connection : Option TertiaryConnection := none
deriving DecidableEq, Repr

/-- `secondary?.loc ? parseFloat(secondary.loc.split(',')[i]) : null`
(lines 151–152): the conditional tests JS truthiness of `loc`, and an
out-of-range split index or unparsable part yields `NaN` (modelled `none`). -/
def secLoc (s : Option SecondaryRaw) (i : Nat) : Option ℚ :=
  match s.bind SecondaryRaw.loc with
  | some loc => if loc = "" then none else ((loc.splitOn ",").get? i).bind parseFloat
  | none => none

/-- The template literal of line 158, `"AS" + tertiary?.connection?.asn`:
JS stringifies an absent interpolation into the text `"undefined"`. -/
def asnTemplate (t : Option TertiaryRaw) : String :=
  "AS" ++ (match (t.bind TertiaryRaw.connection).bind TertiaryConnection.asn with
    | some n => toString n
    | none => "undefined")

/-- The merged `location` block (lines 145–154). -/
structure MergedLocation where
  country : Option String
  countryCode : Option String
  region : Option String
  city : Option String
  zip : Option String
  lat : Option ℚ
  lon : Option ℚ
  timezone : Option String
deriving DecidableEq, Repr

/-- The merged `network` block (lines 155–161). -/
structure MergedNetwork where
  isp : Option String
  org : Option String
  asn : Option String
  hostname : Option String
  domain : Option String
deriving DecidableEq, Repr

/-- The merged `threat` block (lines 162–168); every field is a genuine
boolean (`?? false`), never absent. -/
structure MergedThreat where
  isProxy : Bool
  isVPN : Bool
  isHosting : Bool
  isMobile : Bool
  isAnycast : Bool
deriving DecidableEq, Repr

/-- `confidence` (lines 169–172). -/
structure Confidence where
  sourcesQueried : Nat
  sourcesResponded : Nat
deriving DecidableEq, Repr

/-- The full handler's output object (lines 142–175), without the echoed
`ip`, the constant `sources` array and the timestamp. -/
structure FullOutput where
  location : MergedLocation
  network : MergedNetwork
  threat : MergedThreat
  confidence : Confidence
deriving DecidableEq, Repr

/-- The merged `location` object of the full handler (lines 145–154):
one `||` chain per field, exactly as the source maps the raw fields
(note line 147 reads the secondary's `country` for `countryCode`). -/
def mergedLocation (primary : Option PrimaryRaw) (secondary : Option SecondaryRaw)
    (tertiary : Option TertiaryRaw) : MergedLocation :=
  { country := jsOr strTruthy (jsOr strTruthy (primary.bind PrimaryRaw.country)
      (secondary.bind SecondaryRaw.country)) (tertiary.bind TertiaryRaw.country)
    countryCode := jsOr strTruthy (jsOr strTruthy (primary.bind PrimaryRaw.countryCode)
      (secondary.bind SecondaryRaw.country)) (tertiary.bind TertiaryRaw.country_code)
    region := jsOr strTruthy (jsOr strTruthy (primary.bind PrimaryRaw.regionName)
      (secondary.bind SecondaryRaw.region)) (tertiary.bind TertiaryRaw.region)
    city := jsOr strTruthy (jsOr strTruthy (primary.bind PrimaryRaw.city)
      (secondary.bind SecondaryRaw.city)) (tertiary.bind TertiaryRaw.city)
    zip := jsOr strTruthy (jsOr strTruthy (primary.bind PrimaryRaw.zip)
      (secondary.bind SecondaryRaw.postal)) (tertiary.bind TertiaryRaw.postal)
    lat := jsOr numTruthy (jsOr numTruthy (primary.bind PrimaryRaw.lat)
      (secLoc secondary 0)) (tertiary.bind TertiaryRaw.latitude)
    lon := jsOr numTruthy (jsOr numTruthy (primary.bind PrimaryRaw.lon)
      (secLoc secondary 1)) (tertiary.bind TertiaryRaw.longitude)
    timezone := jsOr strTruthy (jsOr strTruthy (primary.bind PrimaryRaw.timezone)
      (secondary.bind SecondaryRaw.timezone))
      ((tertiary.bind TertiaryRaw.timezone).bind TertiaryTimezone.id) }

/-- The merged `network` object of the full handler (lines 155–161). -/
def mergedNetwork (primary : Option PrimaryRaw) (secondary : Option SecondaryRaw)
    (tertiary : Option TertiaryRaw) : MergedNetwork :=
  { isp := jsOr strTruthy (primary.bind PrimaryRaw.isp)
      ((tertiary.bind TertiaryRaw.connection).bind TertiaryConnection.isp)
    org := jsOr strTruthy (jsOr strTruthy (primary.bind PrimaryRaw.org)
      (secondary.bind SecondaryRaw.org))
      ((tertiary.bind TertiaryRaw.connection).bind TertiaryConnection.org)
    asn := jsOr strTruthy (jsOr strTruthy (primary.bind PrimaryRaw.as)
      (secondary.bind SecondaryRaw.org)) (some (asnTemplate tertiary))
    hostname := jsOr strTruthy (primary.bind PrimaryRaw.reverse)
      (secondary.bind SecondaryRaw.hostname)
    domain := (tertiary.bind TertiaryRaw.connection).bind TertiaryConnection.domain }

/-- The merged `threat` object of the full handler (lines 162–168):
`?? false` on the single providing source per field. -/
def mergedThreat (primary : Option PrimaryRaw) (secondary : Option SecondaryRaw) : MergedThreat :=
  { isProxy := jsNullish (primary.bind PrimaryRaw.proxy) false
    isVPN := jsNullish (primary.bind PrimaryRaw.proxy) false
    isHosting := jsNullish (primary.bind PrimaryRaw.hosting) false
    isMobile := jsNullish (primary.bind PrimaryRaw.mobile) false
    isAnycast := jsNullish (secondary.bind SecondaryRaw.anycast) false }

/-- The `confidence` object of the full handler (lines 169–172):
`[primary, secondary, tertiary].filter(Boolean).length`. -/
def mergedConfidence (primary : Option PrimaryRaw) (secondary : Option SecondaryRaw)
    (tertiary : Option TertiaryRaw) : Confidence :=
  { sourcesQueried := 3
    sourcesResponded :=
      ([primary.isSome, secondary.isSome, tertiary.isSome].filter (fun b => b)).length }

/-- The merged output object of the full handler (lines 142–175), assembled
from the four blocks above. -/
def fullMerge (primary : Option PrimaryRaw) (secondary : Option SecondaryRaw)
    (tertiary : Option TertiaryRaw) : FullOutput :=
  { location := mergedLocation primary secondary tertiary
    network := mergedNetwork primary secondary tertiary
    threat := mergedThreat primary secondary
    confidence := mergedConfidence primary secondary tertiary }

/-- One entry of the `Promise.allSettled` triple (line 132). -/
inductive Settled (α : Type) where
  | fulfilled (value : α)
  | rejected
deriving DecidableEq, Repr

/-- `r.status === 'fulfilled' ? r.value : null` (lines 138–140). -/
def Settled.toOption {α : Type} : Settled α → Option α
  | .fulfilled v => some v
  | .rejected => none

/-- Whether the settled fetch fulfilled. -/
def Settled.isFulfilled {α : Type} : Settled α → Bool
  | .fulfilled _ => true
  | .rejected => false

/-- The full handler after its three fetches settle (lines 132–175). -/
def fullHandler (ipApi : Settled PrimaryRaw) (ipInfo : Settled SecondaryRaw)
    (ipWho : Settled TertiaryRaw) : FullOutput :=
  fullMerge ipApi.toOption ipInfo.toOption ipWho.toOption

/-! ## Distance Calculator (src/index.ts lines 39–45 and 334–355)

IEEE doubles are idealized as reals; this is the standard shallow model of
the float-free mathematical content of the formula. -/

/-- JS `Math.atan2(y, x)` on the reals (argument order as in JS). -/
noncomputable def atan2 (y x : ℝ) : ℝ :=
  if 0 < x then Real.arctan (y / x)
  else if x < 0 then
    (if 0 ≤ y then Real.arctan (y / x) + Real.pi else Real.arctan (y / x) - Real.pi)
  else if 0 < y then Real.pi / 2
  else if y < 0 then -(Real.pi / 2)
  else 0

/-- `haversineDistance` (lines 39–45). -/
noncomputable def haversineDistance (lat1 lon1 lat2 lon2 : ℝ) : ℝ :=
  let R : ℝ := 6371
  let dLat := (lat2 - lat1) * Real.pi / 180
  let dLon := (lon2 - lon1) * Real.pi / 180
  let a := Real.sin (dLat / 2) ^ 2
    + Real.cos (lat1 * Real.pi / 180) * Real.cos (lat2 * Real.pi / 180) * Real.sin (dLon / 2) ^ 2
  R * 2 * atan2 (Real.sqrt a) (Real.sqrt (1 - a))

/-- JS `Math.round`: nearest integer, half rounded toward positive
infinity. -/
noncomputable def jsRound (x : ℝ) : ℤ := ⌊x + 1 / 2⌋

/-- `distance.km` of the distance handler: `Math.round(distanceKm * 100) / 100`
(lines 334, 354). -/
noncomputable def distanceKmOut (lat1 lon1 lat2 lon2 : ℝ) : ℝ :=
  (jsRound (haversineDistance lat1 lon1 lat2 lon2 * 100) : ℝ) / 100

/-- `distance.miles` (lines 335, 355): `distanceMiles = distanceKm * 0.621371`,
then `Math.round(distanceMiles * 100) / 100`. -/
noncomputable def distanceMilesOut (lat1 lon1 lat2 lon2 : ℝ) : ℝ :=
  (jsRound (haversineDistance lat1 lon1 lat2 lon2 * 0.621371 * 100) : ℝ) / 100

/-- The haversine great-circle formula exactly as the spec words it
(§4.5): degree deltas to radians, `a` from squared half-angle sines,
`distanceKm = 2 * R * atan2(sqrt a, sqrt (1 - a))` with `R = 6371`. -/
noncomputable def haversineSpecFormula (lat1 lon1 lat2 lon2 : ℝ) : ℝ :=
  let a := Real.sin ((lat2 - lat1) * Real.pi / 180 / 2) ^ 2
    + Real.cos (lat1 * Real.pi / 180) * Real.cos (lat2 * Real.pi / 180)
      * Real.sin ((lon2 - lon1) * Real.pi / 180 / 2) ^ 2
  2 * 6371 * atan2 (Real.sqrt a) (Real.sqrt (1 - a))

/-! ## Spec-side selection predicates

These state, independently of the implementation, which source a merged
field is taken from; the claim theorems relate the handler's output to
them. -/

/-- The spec/claim's selection for one field: the first of the chain that
is present and non-null wins, regardless of falsiness. -/
def firstPresent3 {α : Type} (a b c : Option α) : Option α :=
  match a with
  | some v => some v
  | none => match b with
    | some v => some v
    | none => c

/-- Priority selection over a three-source chain under a truthiness
test: a truthy first value wins; a falsy (absent or present-falsy) value
falls through; when the first two are falsy the third is the result as-is. -/
def firstTruthy3 {α : Type} (tr : Option α → Bool) (a b c out : Option α) : Prop :=
  (tr a = true → out = a) ∧ (tr a = false → tr b = true → out = b)
    ∧ (tr a = false → tr b = false → out = c)

/-- Priority selection over a two-source chain. -/
def firstTruthy2 {α : Type} (tr : Option α → Bool) (a b out : Option α) : Prop :=
  (tr a = true → out = a) ∧ (tr a = false → out = b)

/-- Nullish selection with a default: a present value wins even when it is
`false`; only absence falls through to the default. -/
def nullishSpec {α : Type} (a : Option α) (d out : α) : Prop :=
  (∀ v, a = some v → out = v) ∧ (a = none → out = d)

theorem jsOr3_firstTruthy {α : Type} (tr : Option α → Bool) (a b c : Option α) :
    firstTruthy3 tr a b c (jsOr tr (jsOr tr a b) c) := by
  refine ⟨fun h => ?_, fun h1 h2 => ?_, fun h1 h2 => ?_⟩ <;> simp [jsOr, *]

theorem jsOr2_firstTruthy {α : Type} (tr : Option α → Bool) (a b : Option α) :
    firstTruthy2 tr a b (jsOr tr a b) := by
  refine ⟨fun h => ?_, fun h => ?_⟩ <;> simp [jsOr, *]

theorem jsNullish_spec {α : Type} (a : Option α) (d : α) :
    nullishSpec a d (jsNullish a d) := by
  refine ⟨fun v h => ?_, fun h => ?_⟩ <;> simp [jsNullish, *]

theorem strTruthy_none : strTruthy none = false := rfl

theorem numTruthy_none : numTruthy none = false := rfl

theorem asnTemplate_none : asnTemplate none = "ASundefined" := rfl

theorem secLoc_none (i : Nat) : secLoc none i = none := rfl








/-- What the full handler produces when only the primary fetch fulfills,
written field-by-field from the primary record alone. -/
def fullPrimaryOnly (p : PrimaryRaw) : FullOutput :=
  { location := {
      country := if strTruthy p.country then p.country else none
      countryCode := if strTruthy p.countryCode then p.countryCode else none
      region := if strTruthy p.regionName then p.regionName else none
      city := if strTruthy p.city then p.city else none
      zip := if strTruthy p.zip then p.zip else none
      lat := if numTruthy p.lat then p.lat else none
      lon := if numTruthy p.lon then p.lon else none
      timezone := if strTruthy p.timezone then p.timezone else none }
    network := {
      isp := if strTruthy p.isp then p.isp else none
      org := if strTruthy p.org then p.org else none
      asn := if strTruthy p.as then p.as else some "ASundefined"
      hostname := if strTruthy p.reverse then p.reverse else none
      domain := none }
    threat := {
      isProxy := p.proxy.getD false
      isVPN := p.proxy.getD false
      isHosting := p.hosting.getD false
      isMobile := p.mobile.getD false
      isAnycast := false }
    confidence := { sourcesQueried := 3, sourcesResponded := 1 } }

/-- What the full handler produces when only the secondary fetch fulfills,
written field-by-field from the secondary record alone.  A chain whose
first two members are falsy returns its last member as-is, so here the
second-position values are filtered by truthiness (a trailing falsy value
would be returned unfiltered only from third position). -/
def fullSecondaryOnly (s : SecondaryRaw) : FullOutput :=
  { location := {
      country := if strTruthy s.country then s.country else none
      countryCode := if strTruthy s.country then s.country else none
      region := if strTruthy s.region then s.region else none
      city := if strTruthy s.city then s.city else none
      zip := if strTruthy s.postal then s.postal else none
      lat := if numTruthy (secLoc (some s) 0) then secLoc (some s) 0 else none
      lon := if numTruthy (secLoc (some s) 1) then secLoc (some s) 1 else none
      timezone := if strTruthy s.timezone then s.timezone else none }
    network := {
      isp := none
      org := if strTruthy s.org then s.org else none
      asn := if strTruthy s.org then s.org else some "ASundefined"
      hostname := s.hostname
      domain := none }
    threat := {
      isProxy := false
      isVPN := false
      isHosting := false
      isMobile := false
      isAnycast := s.anycast.getD false }
    confidence := { sourcesQueried := 3, sourcesResponded := 1 } }

/-- What the full handler produces when only the tertiary fetch fulfills,
written field-by-field from the tertiary record alone.  The tertiary sits
last in every chain it appears in, so its values pass through unfiltered. -/
def fullTertiaryOnly (t : TertiaryRaw) : FullOutput :=
  { location := {
      country := t.country
      countryCode := t.country_code
      region := t.region
      city := t.city
      zip := t.postal
      lat := t.latitude
      lon := t.longitude
      timezone := t.timezone.bind TertiaryTimezone.id }
    network := {
      isp := t.connection.bind TertiaryConnection.isp
      org := t.connection.bind TertiaryConnection.org
      asn := some (asnTemplate (some t))
      hostname := none
      domain := t.connection.bind TertiaryConnection.domain }
    threat := {
      isProxy := false
      isVPN := false
      isHosting := false
      isMobile := false
      isAnycast := false }
    confidence := { sourcesQueried := 3, sourcesResponded := 1 } }

/-- Truthiness of a truthiness-filtered value (helper for the one-source
characterizations). -/
theorem truthy_ite_none {α : Type} (tr : Option α → Bool) (h : tr none = false)
    (a : Option α) : tr (if tr a = true then a else none) = tr a := by
  by_cases ha : tr a <;> simp [ha, h]

theorem fullHandler_primary_only (p : PrimaryRaw) :
    fullHandler (.fulfilled p) .rejected .rejected = fullPrimaryOnly p := by
  simp [fullHandler, Settled.toOption, fullMerge, mergedLocation, mergedNetwork,
    mergedThreat, mergedConfidence, fullPrimaryOnly, secLoc_none, asnTemplate_none,
    jsOr, jsNullish, strTruthy_none, numTruthy_none, truthy_ite_none]
  refine ⟨⟨?_, ?_, ?_, ?_, ?_, ?_, ?_, ?_⟩, ?_, ?_⟩ <;>
    first
      | (intro h; simp [h])
      | (by_cases ha : strTruthy p.as = true <;> simp [ha])

theorem fullHandler_secondary_only (s : SecondaryRaw) :
    fullHandler .rejected (.fulfilled s) .rejected = fullSecondaryOnly s := by
  simp [fullHandler, Settled.toOption, fullMerge, mergedLocation, mergedNetwork,
    mergedThreat, mergedConfidence, fullSecondaryOnly, asnTemplate_none,
    jsOr, jsNullish, strTruthy_none, numTruthy_none, truthy_ite_none]

theorem fullHandler_tertiary_only (t : TertiaryRaw) :
    fullHandler .rejected .rejected (.fulfilled t) = fullTertiaryOnly t := by
  simp [fullHandler, Settled.toOption, fullMerge, mergedLocation, mergedNetwork,
    mergedThreat, mergedConfidence, fullTertiaryOnly, secLoc_none,
    jsOr, jsNullish, strTruthy_none, numTruthy_none, truthy_ite_none]

/-- Claim C1, counterexample: in the full-lookup merge a present falsy
value does not win.  With the primary's `city` present as `""` and the
secondary's as `"Paris"`, the merge yields `"Paris"`, not the first
present-and-non-null value `""`; with the primary's `lat` present as `0`
and the tertiary's as `2`, the merge yields `2`, not `0`. -/
theorem C1_counterexample :
    (fullMerge (some { city := some "" }) (some { city := some "Paris" }) none).location.city
        = some "Paris"
  ∧ firstPresent3 (some "") (some "Paris") (none : Option String) = some ""
  ∧ (fullMerge (some { city := some "" }) (some { city := some "Paris" }) none).location.city
        ≠ firstPresent3 (some "") (some "Paris") none
  ∧ (fullMerge (some { lat := some 0 }) none (some { latitude := some 2 })).location.lat
        = some 2
  ∧ firstPresent3 (some 0) (none : Option ℚ) (some 2) = some 0
  ∧ (fullMerge (some { lat := some 0 }) none (some { latitude := some 2 })).location.lat
        ≠ firstPresent3 (some 0) none (some 2) := by
  refine ⟨rfl, rfl, by decide, rfl, rfl, by decide⟩

/-- Claim C1 (amended): for every output field of the full-lookup merge and
every combination of present/absent source records, the merged value is
taken from the first source in the fixed order primary, secondary, tertiary
whose corresponding field is truthy (present and non-empty for strings,
non-zero for numbers); a present falsy value falls through exactly like an
absent one, and when no chain member is truthy the chain's last member is
the result as-is.  The boolean threat fields are not chained: each comes
from its single providing source with nullish semantics (present `false`
wins immediately; absence defaults to `false`). -/
theorem C1_amended (primary : Option PrimaryRaw) (secondary : Option SecondaryRaw)
    (tertiary : Option TertiaryRaw) :
    firstTruthy3 strTruthy (primary.bind PrimaryRaw.country) (secondary.bind SecondaryRaw.country)
        (tertiary.bind TertiaryRaw.country) (fullMerge primary secondary tertiary).location.country
  ∧ firstTruthy3 strTruthy (primary.bind PrimaryRaw.countryCode) (secondary.bind SecondaryRaw.country)
        (tertiary.bind TertiaryRaw.country_code) (fullMerge primary secondary tertiary).location.countryCode
  ∧ firstTruthy3 strTruthy (primary.bind PrimaryRaw.regionName) (secondary.bind SecondaryRaw.region)
        (tertiary.bind TertiaryRaw.region) (fullMerge primary secondary tertiary).location.region
  ∧ firstTruthy3 strTruthy (primary.bind PrimaryRaw.city) (secondary.bind SecondaryRaw.city)
        (tertiary.bind TertiaryRaw.city) (fullMerge primary secondary tertiary).location.city
  ∧ firstTruthy3 strTruthy (primary.bind PrimaryRaw.zip) (secondary.bind SecondaryRaw.postal)
        (tertiary.bind TertiaryRaw.postal) (fullMerge primary secondary tertiary).location.zip
  ∧ firstTruthy3 numTruthy (primary.bind PrimaryRaw.lat) (secLoc secondary 0)
        (tertiary.bind TertiaryRaw.latitude) (fullMerge primary secondary tertiary).location.lat
  ∧ firstTruthy3 numTruthy (primary.bind PrimaryRaw.lon) (secLoc secondary 1)
        (tertiary.bind TertiaryRaw.longitude) (fullMerge primary secondary tertiary).location.lon
  ∧ firstTruthy3 strTruthy (primary.bind PrimaryRaw.timezone) (secondary.bind SecondaryRaw.timezone)
        ((tertiary.bind TertiaryRaw.timezone).bind TertiaryTimezone.id)
        (fullMerge primary secondary tertiary).location.timezone
  ∧ firstTruthy2 strTruthy (primary.bind PrimaryRaw.isp)
        ((tertiary.bind TertiaryRaw.connection).bind TertiaryConnection.isp)
        (fullMerge primary secondary tertiary).network.isp
  ∧ firstTruthy3 strTruthy (primary.bind PrimaryRaw.org) (secondary.bind SecondaryRaw.org)
        ((tertiary.bind TertiaryRaw.connection).bind TertiaryConnection.org)
        (fullMerge primary secondary tertiary).network.org
  ∧ firstTruthy3 strTruthy (primary.bind PrimaryRaw.as) (secondary.bind SecondaryRaw.org)
        (some (asnTemplate tertiary)) (fullMerge primary secondary tertiary).network.asn
  ∧ firstTruthy2 strTruthy (primary.bind PrimaryRaw.reverse) (secondary.bind SecondaryRaw.hostname)
        (fullMerge primary secondary tertiary).network.hostname
  ∧ (fullMerge primary secondary tertiary).network.domain
        = (tertiary.bind TertiaryRaw.connection).bind TertiaryConnection.domain
  ∧ nullishSpec (primary.bind PrimaryRaw.proxy) false (fullMerge primary secondary tertiary).threat.isProxy
  ∧ nullishSpec (primary.bind PrimaryRaw.proxy) false (fullMerge primary secondary tertiary).threat.isVPN
  ∧ nullishSpec (primary.bind PrimaryRaw.hosting) false (fullMerge primary secondary tertiary).threat.isHosting
  ∧ nullishSpec (primary.bind PrimaryRaw.mobile) false (fullMerge primary secondary tertiary).threat.isMobile
  ∧ nullishSpec (secondary.bind SecondaryRaw.anycast) false (fullMerge primary secondary tertiary).threat.isAnycast := by
  simp only [fullMerge, mergedLocation, mergedNetwork, mergedThreat]
  exact ⟨jsOr3_firstTruthy _ _ _ _, jsOr3_firstTruthy _ _ _ _, jsOr3_firstTruthy _ _ _ _,
    jsOr3_firstTruthy _ _ _ _, jsOr3_firstTruthy _ _ _ _, jsOr3_firstTruthy _ _ _ _,
    jsOr3_firstTruthy _ _ _ _, jsOr3_firstTruthy _ _ _ _, jsOr2_firstTruthy _ _ _,
    jsOr3_firstTruthy _ _ _ _, jsOr3_firstTruthy _ _ _ _, jsOr2_firstTruthy _ _ _,
    trivial, jsNullish_spec _ _, jsNullish_spec _ _, jsNullish_spec _ _, jsNullish_spec _ _,
    jsNullish_spec _ _⟩

/-- Claim C2, counterexample: a fulfilled primary fetch whose JSON has
`status = 'fail'` is not treated as absent by the full-lookup merge — it
still contributes its `country` field and still counts in
`sourcesResponded`. -/
theorem C2_counterexample :
    ({ status := some "fail", country := some "Atlantis" } : PrimaryRaw).status ≠ some "success"
  ∧ (fullHandler (.fulfilled { status := some "fail", country := some "Atlantis" })
        .rejected .rejected).location.country = some "Atlantis"
  ∧ (fullHandler .rejected .rejected .rejected).location.country = none
  ∧ (fullHandler (.fulfilled { status := some "fail", country := some "Atlantis" })
        .rejected .rejected).confidence.sourcesResponded
      ≠ (fullHandler .rejected .rejected .rejected).confidence.sourcesResponded := by
  refine ⟨by decide, rfl, rfl, by decide⟩

/-- Claim C2 (amended): the full-lookup merge never inspects a provider's
`status` field — the output is invariant under changing it — and a
fulfilled fetch always counts as one responding source, whatever its
status. -/
theorem C2_amended (p : PrimaryRaw) (st : Option String)
    (ipInfo : Settled SecondaryRaw) (ipWho : Settled TertiaryRaw) :
    fullHandler (.fulfilled { p with status := st }) ipInfo ipWho
        = fullHandler (.fulfilled p) ipInfo ipWho
  ∧ (fullHandler (.fulfilled p) ipInfo ipWho).confidence.sourcesResponded
      = (fullHandler .rejected ipInfo ipWho).confidence.sourcesResponded + 1 := by
  constructor
  · rfl
  · cases ipInfo <;> cases ipWho <;> rfl

/-- Claim C3, counterexample: a fulfilled primary fetch whose JSON status
is `'fail'` is still counted by `confidence.sourcesResponded`, which is
therefore not the count of fetches that succeeded *and* returned a success
status. -/
theorem C3_counterexample :
    ({ status := some "fail" } : PrimaryRaw).status ≠ some "success"
  ∧ (fullHandler (.fulfilled { status := some "fail" }) .rejected .rejected).confidence.sourcesResponded
      = 1
  ∧ (fullHandler (.fulfilled { status := some "fail" }) .rejected .rejected).confidence.sourcesResponded
      ≠ 0 := by
  refine ⟨by decide, rfl, by decide⟩

/-- Claim C3 (amended): `confidence.sourcesQueried` is always 3;
`confidence.sourcesResponded` counts the fetches that fulfilled (did not
reject), regardless of the provider status in the returned JSON; and when
exactly two of the three fetches reject, `sourcesResponded = 1` and the
whole output is the one responding source's characterization (a function
of that record alone). -/
theorem C3_amended (ipApi : Settled PrimaryRaw) (ipInfo : Settled SecondaryRaw)
    (ipWho : Settled TertiaryRaw) :
    (fullHandler ipApi ipInfo ipWho).confidence.sourcesQueried = 3
  ∧ (fullHandler ipApi ipInfo ipWho).confidence.sourcesResponded
      = (if ipApi.isFulfilled then 1 else 0) + ((if ipInfo.isFulfilled then 1 else 0)
        + (if ipWho.isFulfilled then 1 else 0))
  ∧ (∀ p, fullHandler (.fulfilled p) .rejected .rejected = fullPrimaryOnly p
      ∧ (fullHandler (.fulfilled p) .rejected .rejected).confidence.sourcesResponded = 1)
  ∧ (∀ s, fullHandler .rejected (.fulfilled s) .rejected = fullSecondaryOnly s
      ∧ (fullHandler .rejected (.fulfilled s) .rejected).confidence.sourcesResponded = 1)
  ∧ (∀ t, fullHandler .rejected .rejected (.fulfilled t) = fullTertiaryOnly t
      ∧ (fullHandler .rejected .rejected (.fulfilled t)).confidence.sourcesResponded = 1) := by
  refine ⟨rfl, ?_, fun p => ⟨fullHandler_primary_only p, rfl⟩,
    fun s => ⟨fullHandler_secondary_only s, rfl⟩,
    fun t => ⟨fullHandler_tertiary_only t, rfl⟩⟩
  cases ipApi <;> cases ipInfo <;> cases ipWho <;> rfl

/-- Claim C10: in the full lookup the threat booleans are never absent
(their type is `Bool`): `isProxy`, `isVPN`, `isHosting` and `isMobile` are
`false` whenever the primary source is absent, `isAnycast` is `false`
whenever the secondary source is absent, and `isVPN` always equals
`isProxy`. -/
theorem C10_threat_booleans :
    (∀ (ipInfo : Settled SecondaryRaw) (ipWho : Settled TertiaryRaw),
        (fullHandler .rejected ipInfo ipWho).threat.isProxy = false
      ∧ (fullHandler .rejected ipInfo ipWho).threat.isVPN = false
      ∧ (fullHandler .rejected ipInfo ipWho).threat.isHosting = false
      ∧ (fullHandler .rejected ipInfo ipWho).threat.isMobile = false)
  ∧ (∀ (ipApi : Settled PrimaryRaw) (ipWho : Settled TertiaryRaw),
        (fullHandler ipApi .rejected ipWho).threat.isAnycast = false)
  ∧ (∀ (ipApi : Settled PrimaryRaw) (ipInfo : Settled SecondaryRaw)
        (ipWho : Settled TertiaryRaw),
        (fullHandler ipApi ipInfo ipWho).threat.isVPN
          = (fullHandler ipApi ipInfo ipWho).threat.isProxy) := by
  exact ⟨fun _ _ => ⟨rfl, rfl, rfl, rfl⟩, fun _ _ => rfl, fun _ _ _ => rfl⟩

/-- Claim C4: the threat risk score is the additive sum, evaluated in the
fixed order proxy/VPN (+40, `proxy_or_vpn`), hosting (+30,
`datacenter_hosting`), mobile (+10, `mobile_carrier`), no reverse DNS
(+10, `no_reverse_dns`), with the factors cumulative and listed in that
order; the level is `high` iff score ≥ 50, `medium` iff 20 ≤ score < 50,
`low` iff score < 20; all four signals give 90/high, no signals with
reverse DNS give 0/low, only missing reverse DNS gives 10/low (and the
boundaries: 20 is `medium`, 50 is `high`). -/
theorem C4_risk_table (d : ThreatRaw) :
    riskScore d =
      (if boolTruthy d.proxy then 40 else 0) + (if boolTruthy d.hosting then 30 else 0)
        + (if boolTruthy d.mobile then 10 else 0) + (if strTruthy d.reverse then 0 else 10)
  ∧ riskFactors d =
      (if boolTruthy d.proxy then ["proxy_or_vpn"] else [])
        ++ (if boolTruthy d.hosting then ["datacenter_hosting"] else [])
        ++ (if boolTruthy d.mobile then ["mobile_carrier"] else [])
        ++ (if strTruthy d.reverse then [] else ["no_reverse_dns"])
  ∧ (riskLevel d = .high ↔ riskScore d ≥ 50)
  ∧ (riskLevel d = .medium ↔ 20 ≤ riskScore d ∧ riskScore d < 50)
  ∧ (riskLevel d = .low ↔ riskScore d < 20)
  ∧ riskScore { proxy := some true, hosting := some true, mobile := some true } = 90
  ∧ riskLevel { proxy := some true, hosting := some true, mobile := some true } = .high
  ∧ riskFactors { proxy := some true, hosting := some true, mobile := some true }
      = ["proxy_or_vpn", "datacenter_hosting", "mobile_carrier", "no_reverse_dns"]
  ∧ riskScore { reverse := some "host.example.net" } = 0
  ∧ riskLevel { reverse := some "host.example.net" } = .low
  ∧ riskScore ({} : ThreatRaw) = 10
  ∧ riskLevel ({} : ThreatRaw) = .low
  ∧ riskScore { mobile := some true } = 20
  ∧ riskLevel { mobile := some true } = .medium
  ∧ riskScore { proxy := some true, mobile := some true, reverse := some "r.example" } = 50
  ∧ riskLevel { proxy := some true, mobile := some true, reverse := some "r.example" } = .high := by
  refine ⟨riskScore_eq d, riskFactors_eq d, ?_, ?_, ?_,
    by decide, by decide, by decide, by decide, by decide, by decide, by decide,
    by decide, by decide, by decide, by decide⟩ <;>
  · unfold riskLevel
    by_cases h1 : riskScore d ≥ 50 <;> by_cases h2 : riskScore d ≥ 20 <;>
      simp [h1, h2] <;> omega

/-- Claim C7: the risk score is monotonically non-decreasing in the risk
signals — whenever every risk condition of `d1` (truthy proxy, truthy
hosting, truthy mobile, falsy reverse DNS) also holds of `d2`, the score
of `d2` is at least the score of `d1`. -/
theorem C7_risk_monotone (d1 d2 : ThreatRaw)
    (hp : boolTruthy d1.proxy = true → boolTruthy d2.proxy = true)
    (hh : boolTruthy d1.hosting = true → boolTruthy d2.hosting = true)
    (hm : boolTruthy d1.mobile = true → boolTruthy d2.mobile = true)
    (hr : strTruthy d1.reverse = false → strTruthy d2.reverse = false) :
    riskScore d1 ≤ riskScore d2 := by
  have key : ∀ (x y : Bool) (k : Nat), (x = true → y = true) →
      (if x then k else 0) ≤ (if y then k else 0) := by
    intro x y k h; cases x <;> cases y <;> simp_all
  have key2 : ∀ (x y : Bool) (k : Nat), (x = false → y = false) →
      (if x then 0 else k) ≤ (if y then 0 else k) := by
    intro x y k h; cases x <;> cases y <;> simp_all
  rw [riskScore_eq, riskScore_eq]
  exact Nat.add_le_add (Nat.add_le_add (Nat.add_le_add (key _ _ _ hp) (key _ _ _ hh))
    (key _ _ _ hm)) (key2 _ _ _ hr)

/-- Witness for C7 at a concrete pair: no signals (with reverse DNS) versus
all signals (without reverse DNS). -/
theorem C7_risk_monotone_witness :
    riskScore { reverse := some "host.example.net" }
      ≤ riskScore { proxy := some true, hosting := some true, mobile := some true } :=
  C7_risk_monotone _ _ (by decide) (by decide) (by decide) (by decide)

/-- The results list entry at any index is the per-item function of that
valid IP and its own fetch outcome (shared helper). -/
theorem batchHandler_results_get (ips : List String) (valid : String → Bool)
    (env : String → FetchResult) (j : Nat) :
    (batchHandler ips valid env).results[j]?
      = ((ips.filter valid)[j]?).map (fun q => batchItemOf q (env q)) := by
  simp [batchHandler, List.getElem?_map]

/-- Claim C5: the batch operation never fails as a whole due to a per-item
fault — for every input list of 1 to 10 IP strings, if an item's fetch
throws/times out or its provider reports a non-success status, that item's
`results` entry is `{ip, error}` with the input `ip` and an error string;
and the entries of all other items are unchanged under any change of that
item's fetch outcome. -/
theorem C5_batch_isolation (ips : List String) (valid : String → Bool)
    (env env' : String → FetchResult) (i : Nat) (ip : String)
    (hlo : 1 ≤ ips.length) (hhi : ips.length ≤ 10)
    (hip : (ips.filter valid)[i]? = some ip) :
    ((env ip = .thrown ∨ ∃ d, env ip = .ok d ∧ d.status ≠ some "success") →
        ∃ e, (batchHandler ips valid env).results[i]? = some (.err ip e))
  ∧ ((∀ q, q ≠ ip → env' q = env q) →
      ∀ (j : Nat) (q : String), (ips.filter valid)[j]? = some q → q ≠ ip →
        (batchHandler ips valid env').results[j]?
          = (batchHandler ips valid env).results[j]?) := by
  constructor
  · intro hf
    rw [batchHandler_results_get, hip]
    rcases hf with h | ⟨d, hd, hst⟩
    · exact ⟨"Request failed", by simp [batchItemOf, h]⟩
    · exact ⟨"Lookup failed", by simp [batchItemOf, hd, hst]⟩
  · intro hagree j q hq hne
    rw [batchHandler_results_get, batchHandler_results_get, hq]
    simp [hagree q hne]

/-- Witness for C5: one valid IP whose fetch throws yields an error entry. -/
theorem C5_batch_isolation_witness :
    ∃ e, (batchHandler ["1.2.3.4"] (fun _ => true)
        (fun _ => FetchResult.thrown)).results[0]? = some (.err "1.2.3.4" e) :=
  (C5_batch_isolation ["1.2.3.4"] (fun _ => true) (fun _ => FetchResult.thrown)
    (fun _ => FetchResult.thrown) 0 "1.2.3.4" (by decide) (by decide) rfl).1 (Or.inl rfl)

/-- Claim C6: the batch results are in input order restricted to the valid
IPs; `count = {requested, valid, invalid}` with `valid + invalid =
requested`; and `invalidIPs` is present (listing the invalid inputs in
input order) exactly when at least one input is invalid — otherwise the
field is absent, not an empty list. -/
theorem C6_batch_shape (ips : List String) (valid : String → Bool)
    (env : String → FetchResult) :
    (batchHandler ips valid env).count.requested = ips.length
  ∧ (batchHandler ips valid env).count.valid = (ips.filter valid).length
  ∧ (batchHandler ips valid env).count.invalid = (ips.filter (fun q => !valid q)).length
  ∧ (batchHandler ips valid env).count.valid + (batchHandler ips valid env).count.invalid
      = (batchHandler ips valid env).count.requested
  ∧ (batchHandler ips valid env).results.length = (ips.filter valid).length
  ∧ (∀ (j : Nat) (q : String), (ips.filter valid)[j]? = some q →
      (batchHandler ips valid env).results[j]? = some (batchItemOf q (env q)))
  ∧ ((batchHandler ips valid env).invalidIPs = none ↔ ips.filter (fun q => !valid q) = [])
  ∧ (∀ l, (batchHandler ips valid env).invalidIPs = some l → l = ips.filter (fun q => !valid q)) := by
  refine ⟨rfl, rfl, rfl, ?_, by simp [batchHandler], ?_, ?_, ?_⟩
  · show (ips.filter valid).length + (ips.filter (fun q => !valid q)).length = ips.length
    simpa using (List.length_eq_length_filter_add (l := ips) valid).symm
  · intro j q hq
    rw [batchHandler_results_get, hq]
    rfl
  · by_cases h : (ips.filter (fun q => !valid q)).length > 0
    · have hne : ips.filter (fun q => !valid q) ≠ [] := by
        intro he; rw [he] at h; simp at h
      simp [batchHandler, h, hne]
    · have he : ips.filter (fun q => !valid q) = [] := by
        simpa using Nat.eq_zero_of_not_pos h
      simp [batchHandler, he]
  · intro l hl
    by_cases h : (ips.filter (fun q => !valid q)).length > 0
    · simp [batchHandler, h] at hl
      exact hl.symm
    · simp [batchHandler, h] at hl

/-- Claim C8: the distance computation equals the haversine great-circle
formula with Earth radius 6371 km as the spec states it, `distanceMiles =
distanceKm * 0.621371`, and both outputs are rounded to 2 decimals as
`round(x*100)/100`. -/
theorem C8_haversine_formula (lat1 lon1 lat2 lon2 : ℝ) :
    haversineDistance lat1 lon1 lat2 lon2 = haversineSpecFormula lat1 lon1 lat2 lon2
  ∧ distanceKmOut lat1 lon1 lat2 lon2
      = (jsRound (haversineSpecFormula lat1 lon1 lat2 lon2 * 100) : ℝ) / 100
  ∧ distanceMilesOut lat1 lon1 lat2 lon2
      = (jsRound (haversineSpecFormula lat1 lon1 lat2 lon2 * 0.621371 * 100) : ℝ) / 100 := by
  have h : haversineDistance lat1 lon1 lat2 lon2 = haversineSpecFormula lat1 lon1 lat2 lon2 := by
    simp only [haversineDistance, haversineSpecFormula]
    ring
  exact ⟨h, by rw [distanceKmOut, h], by rw [distanceMilesOut, h]⟩

/-- Claim C9: the distance from any point to itself is 0, and the distance
function is symmetric in its two coordinate pairs (and so are the rounded
outputs). -/
theorem C9_distance_symm_zero (lat lon lat1 lon1 lat2 lon2 : ℝ) :
    haversineDistance lat lon lat lon = 0
  ∧ haversineDistance lat1 lon1 lat2 lon2 = haversineDistance lat2 lon2 lat1 lon1
  ∧ distanceKmOut lat lon lat lon = 0
  ∧ distanceKmOut lat1 lon1 lat2 lon2 = distanceKmOut lat2 lon2 lat1 lon1
  ∧ distanceMilesOut lat1 lon1 lat2 lon2 = distanceMilesOut lat2 lon2 lat1 lon1 := by
  have hz : haversineDistance lat lon lat lon = 0 := by
    simp only [haversineDistance]
    rw [show (lat - lat) * Real.pi / 180 / 2 = 0 by ring,
      show (lon - lon) * Real.pi / 180 / 2 = 0 by ring]
    norm_num [Real.sin_zero, Real.sqrt_zero, Real.sqrt_one, atan2, Real.arctan_zero]
  have hs : haversineDistance lat1 lon1 lat2 lon2 = haversineDistance lat2 lon2 lat1 lon1 := by
    simp only [haversineDistance]
    rw [show (lat2 - lat1) * Real.pi / 180 / 2 = -((lat1 - lat2) * Real.pi / 180 / 2) by ring,
      show (lon2 - lon1) * Real.pi / 180 / 2 = -((lon1 - lon2) * Real.pi / 180 / 2) by ring,
      Real.sin_neg, Real.sin_neg]
    ring_nf
  refine ⟨hz, hs, ?_, by rw [distanceKmOut, distanceKmOut, hs], by rw [distanceMilesOut, distanceMilesOut, hs]⟩
  rw [distanceKmOut, hz]
  norm_num [jsRound]
